import Mathlib

/-!
Verification of the event fan-out / notification hub of the whatsapp-mcp
repository, shallowly embedded from `src/whatsapp-mcp-server/main.py` and
`src/whatsapp-mcp-server/http_server.py`.

The embedding models:
  * the handler registry (`message_handlers`, a plain Python list) with
    `add_message_handler` / `remove_message_handler`;
  * the dispatch loop of `notify_message_handlers`, which first awaits
    `built_in_auto_reply` and then runs a `for handler in message_handlers`
    loop with a per-handler `try/except`;
  * the ingestion endpoint `message_notification`;
  * the `send_message` MCP tool;
  * the SSE machinery of `http_server.py`: `broadcast_event` (which iterates
    `sse_connections.copy()` and removes failed queues under an `in` guard)
    and the `event_generator` keepalive loop (`asyncio.wait_for(queue.get(),
    timeout=30.0)`).

Python exceptions raised by a handler are modelled as an explicit failure
flag; a handler being able to register further handlers mid-dispatch (by
calling `add_message_handler` from inside its body) is modelled by an
`adds` field, and the Python `for` loop over the live, mutable list is
modelled by index-based iteration over a registry that grows as handlers
are appended.  A fuel parameter makes the iteration structurally
terminating; any fuel at least the number of handlers eventually visited is
enough, mirroring the finite runs of the Python loop.
-/

/-- Model of the `message_data` dict received from the WhatsApp bridge.
Each field models one key (`type`, `sender`, `content`, `chat_jid`,
`media_type`, `chat_name`); `none` models an absent key, and
`Option.getD` models Python's `dict.get(key, default)`. -/
structure MessageData where
  msgType : Option String
  sender : Option String
  content : Option String
  chat_jid : Option String
  media_type : Option String
  chat_name : Option String
deriving DecidableEq, Repr

/-- A registered message handler.  `id` identifies the callback, `fails`
models the handler raising an exception when invoked, and `adds` models the
handlers it registers (via `add_message_handler`) during its own
invocation. -/
inductive Handler where
  | mk (id : Nat) (fails : Bool) (adds : List Handler)

/-- Identity of a handler. -/
def Handler.id : Handler → Nat
  | .mk i _ _ => i

/-- Whether the handler raises when invoked. -/
def Handler.fails : Handler → Bool
  | .mk _ f _ => f

/-- Handlers registered by this handler during its invocation. -/
def Handler.adds : Handler → List Handler
  | .mk _ _ a => a

/-- Observable effects of one dispatch: a handler being invoked with an
event, the dispatcher logging a caught handler exception
(`logger.error("Error in message handler: ...")`), and the built-in
auto-reply calling `whatsapp_send_message(chat_jid, response)`. -/
inductive Effect where
  | invoked (id : Nat) (e : MessageData)
  | errorLogged (id : Nat)
  | sent (chat_jid : String) (text : String)
deriving DecidableEq, Repr

/-- Whether the effect is a handler invocation. -/
def Effect.isInvoked : Effect → Bool
  | .invoked _ _ => true
  | _ => false

/-- Whether the effect is an outbound auto-reply send. -/
def Effect.isSent : Effect → Bool
  | .sent _ _ => true
  | _ => false

/-- External collaborators of `main.py`: `generate_llamastack_response`
(returning `None` on any internal failure, modelled as `none`) and
`whatsapp_send_message` returning a `(success, status_message)` pair. -/
structure Env where
  genResponse : String → String → String → String → String → Option String
  sendMessage : String → String → Bool × String

/-- Embedding of `add_message_handler` (main.py, lines 35-38):
`message_handlers.append(handler)`. -/
def add_message_handler {α : Type} (message_handlers : List α) (handler : α) : List α :=
  message_handlers ++ [handler]

/-- Embedding of `remove_message_handler` (main.py, lines 40-44):
`if handler in message_handlers: message_handlers.remove(handler)`.
Python's `list.remove` deletes the first occurrence, i.e. `List.erase`. -/
def remove_message_handler {α : Type} [DecidableEq α]
    (message_handlers : List α) (handler : α) : List α :=
  if handler ∈ message_handlers then message_handlers.erase handler
  else message_handlers

/-- Model of Python's `str.strip()`: drop whitespace characters from both
ends of the string. -/
def pyStrip (s : String) : String :=
  ⟨((s.data.dropWhile Char.isWhitespace).reverse.dropWhile Char.isWhitespace).reverse⟩

/-- Embedding of `built_in_auto_reply` (main.py, lines 62-87).  Field
lookups mirror the `message_data.get(...)` calls with their defaults;
`content.strip()` is `pyStrip`; the handler returns early when both the
stripped content and the media type are empty; otherwise it asks the
LlamaStack collaborator for a response and, if the response is truthy
(non-`None` and non-empty), calls `whatsapp_send_message`. The surrounding
`try/except` means the function never raises, which the total return type
reflects. -/
def built_in_auto_reply (env : Env) (m : MessageData) : List Effect :=
  let sender := m.sender.getD "unknown"
  let content := pyStrip (m.content.getD "")
  let chat_jid := m.chat_jid.getD "unknown"
  let media_type := m.media_type.getD ""
  let chat_name := m.chat_name.getD "unknown"
  if content = "" ∧ media_type = "" then []
  else
    match env.genResponse content media_type sender chat_name chat_jid with
    | none => []
    | some response =>
      if response = "" then []
      else [Effect.sent chat_jid response]

/-- Embedding of the `for handler in message_handlers` loop of
`notify_message_handlers` (main.py, lines 53-60).  Python's `for` iterates
the live list by index, so handlers appended during the loop are visited;
the registry therefore grows by `hd.adds` after each invocation.  Each
iteration records the invocation and, when the handler raises, the caught
and logged exception; the loop then continues with the next handler. -/
def dispatchHandlers (fuel : Nat) (registry : List Handler) (i : Nat)
    (e : MessageData) : List Effect :=
  match fuel with
  | 0 => []
  | fuel' + 1 =>
    if h : i < registry.length then
      Effect.invoked (registry.get ⟨i, h⟩).id e ::
        ((if (registry.get ⟨i, h⟩).fails then
            [Effect.errorLogged (registry.get ⟨i, h⟩).id]
          else []) ++
          dispatchHandlers fuel' (registry ++ (registry.get ⟨i, h⟩).adds) (i + 1) e)
    else []

/-- Embedding of `notify_message_handlers` (main.py, lines 46-60): first
`await built_in_auto_reply(message_data)`, then the dispatch loop over the
registered handlers.  The result is the trace of observable effects; the
total (non-`Except`) return type reflects that every handler exception is
caught inside the loop and nothing propagates to the caller. -/
def notify_message_handlers (env : Env) (fuel : Nat) (handlers : List Handler)
    (e : MessageData) : List Effect :=
  built_in_auto_reply env e ++ dispatchHandlers fuel handlers 0 e

/-- Response of the ingestion endpoint: the JSON body fields and the HTTP
status code. -/
structure NotificationResponse where
  success : Bool
  message : String
  statusCode : Nat
deriving DecidableEq, Repr

/-- Embedding of the `message_notification` route (main.py, lines
820-842).  `await request.json()` either fails (body not parseable JSON,
modelled as `Except.error` carrying the exception text) or yields the
parsed object; on failure the `except` branch returns `success: false`
with status 500, otherwise the handlers are notified and the route returns
`success: true` with status 200.  No shape validation is performed on the
parsed object. -/
def message_notification (env : Env) (fuel : Nat) (handlers : List Handler)
    (body : Except String MessageData) : NotificationResponse × List Effect :=
  match body with
  | .error err =>
    (⟨false, "Error processing notification: " ++ err, 500⟩, [])
  | .ok nd =>
    (⟨true, "Notification processed successfully", 200⟩,
      notify_message_handlers env fuel handlers nd)

/-- Result dictionary of the `send_message` MCP tool. -/
structure SendResult where
  success : Bool
  message : String
deriving DecidableEq, Repr

/-- Embedding of the `send_message` tool (main.py, lines 596-622).  `if not
recipient` on a string is the empty-string test; the second component of
the result records the calls made to the underlying
`whatsapp_send_message` collaborator. -/
def send_message (wsend : String → String → Bool × String)
    (recipient : String) (message : String) : SendResult × List (String × String) :=
  if recipient = "" then (⟨false, "Recipient must be provided"⟩, [])
  else
    (⟨(wsend recipient message).1, (wsend recipient message).2⟩,
      [(recipient, message)])

/-- Embedding of the guarded removal idiom used in `http_server.py`
(`if queue in sse_connections: sse_connections.remove(queue)`), appearing
both in `broadcast_event`'s failure branch and in `event_generator`'s
`finally` block. -/
def guardedRemove {α : Type} [DecidableEq α] (l : List α) (q : α) : List α :=
  if q ∈ l then l.erase q else l

/-- Loop of `broadcast_event` (http_server.py, lines 261-276): iterate the
point-in-time copy `sse_connections.copy()` held in `pending`; a
successful `queue.put` delivers the event, a failed one is caught and the
queue is removed from the live list under the `in` guard.  Returns the
delivered queues (in order) and the final live connection list. -/
def broadcastGo {α : Type} [DecidableEq α] (putOk : α → Bool)
    (pending : List α) (delivered : List α) (live : List α) : List α × List α :=
  match pending with
  | [] => (delivered, live)
  | q :: rest =>
    if putOk q then broadcastGo putOk rest (delivered ++ [q]) live
    else broadcastGo putOk rest delivered (guardedRemove live q)

/-- Embedding of `broadcast_event` (http_server.py, lines 261-276).  The
event payload is built the same way for every queue and does not influence
control flow, so it is abstracted away; `putOk q` models whether `await
q.put(event_data)` succeeds for queue `q`. -/
def broadcast_event {α : Type} [DecidableEq α] (sse_connections : List α)
    (putOk : α → Bool) : List α × List α :=
  broadcastGo putOk sse_connections [] sse_connections

/-- Events emitted by the SSE `event_generator`: the initial `connected`
event, synthetic `keepalive` events carrying the time they are emitted,
and real events taken from the connection's queue. -/
inductive OutEvent where
  | connected (ts : Nat)
  | keepalive (ts : Nat)
  | realEvent (data : String) (ts : Nat)
deriving DecidableEq, Repr

/-- Whether the emitted event is a synthetic keepalive. -/
def OutEvent.isKeepalive : OutEvent → Bool
  | .keepalive _ => true
  | _ => false

/-- The `while True` loop of `event_generator` (http_server.py, lines
239-251), run against a discrete fake clock.  `t` is the time the current
`asyncio.wait_for(queue.get(), timeout=30.0)` starts; `arrivals` is the
time-ordered schedule of events enqueued on this connection's queue.  If
the next arrival is within 30 time units the real event is yielded at its
arrival time; otherwise the timeout fires at `t + 30` and a keepalive
carrying that timestamp is yielded, after which the loop waits again.
`fuel` bounds the number of loop iterations (the Python loop runs
forever). -/
def sseLoop (fuel : Nat) (t : Nat) (arrivals : List (Nat × String)) : List OutEvent :=
  match fuel with
  | 0 => []
  | fuel' + 1 =>
    match arrivals with
    | [] => OutEvent.keepalive (t + 30) :: sseLoop fuel' (t + 30) []
    | (ta, d) :: rest =>
      if ta ≤ t + 30 then OutEvent.realEvent d ta :: sseLoop fuel' ta rest
      else OutEvent.keepalive (t + 30) :: sseLoop fuel' (t + 30) ((ta, d) :: rest)

/-- Embedding of `event_generator` (http_server.py, lines 223-251): the
initial `connected` event followed by the wait/keepalive loop. -/
def event_generator (fuel : Nat) (t0 : Nat) (arrivals : List (Nat × String)) : List OutEvent :=
  OutEvent.connected t0 :: sseLoop fuel t0 arrivals

/-- The keepalives the loop emits while idle starting at time `t`: one at
the end of each elapsed 30-unit window. -/
def kaList (t : Nat) : Nat → List OutEvent
  | 0 => []
  | k + 1 => OutEvent.keepalive (t + 30) :: kaList (t + 30) k

/-- Concrete environment for witnesses: the LlamaStack collaborator always
fails to produce a response and sends always succeed. -/
def env₀ : Env :=
  ⟨fun _ _ _ _ _ => none, fun _ _ => (true, "ok")⟩

/-- The empty notification object: a JSON body `{}` parsed into a dict with
no keys. -/
def e₀ : MessageData :=
  ⟨none, none, none, none, none, none⟩

/-- The well-formed notification of the malformed-input-rejection
property. -/
def md123 : MessageData :=
  ⟨some "new_message", some "123", some "hi", none, none, none⟩

/-! ### Shared lemmas about the dispatch loop -/

/-- The effects the dispatch loop produces for a list of handlers none of
which registers further handlers: each handler's invocation followed by
the logged error when it raises. -/
def flatTrace (l : List Handler) (e : MessageData) : List Effect :=
  match l with
  | [] => []
  | h :: rest =>
    Effect.invoked h.id e ::
      ((if h.fails then [Effect.errorLogged h.id] else []) ++ flatTrace rest e)

lemma dropSucc {α : Type} (l : List α) (i : Nat) (h : i < l.length) :
    l.drop i = l.get ⟨i, h⟩ :: l.drop (i + 1) := by
  induction l generalizing i with
  | nil => simp at h
  | cons a l ih =>
    cases i with
    | zero => simp
    | succ n => simpa using ih n (Nat.lt_of_succ_lt_succ h)

lemma all_adds_empty {hs : List Handler}
    (h : hs.all (fun x => x.adds.isEmpty) = true) :
    ∀ x ∈ hs, x.adds = [] := by
  intro x hx
  have hx' := List.all_eq_true.mp h x hx
  cases hadds : x.adds with
  | nil => rfl
  | cons a l => rw [hadds] at hx'; simp [List.isEmpty] at hx'

/-- When no handler registers further handlers, the dispatch loop with
enough fuel produces exactly the flat trace of the remaining suffix. -/
lemma dispatch_no_adds (e : MessageData) :
    ∀ (fuel : Nat) (hs : List Handler) (i : Nat),
      (∀ x ∈ hs, x.adds = []) → hs.length ≤ i + fuel →
      dispatchHandlers fuel hs i e = flatTrace (hs.drop i) e := by
  intro fuel
  induction fuel with
  | zero =>
    intro hs i _ hlen
    have hnil : hs.drop i = [] := List.drop_eq_nil_of_le (by omega)
    simp [dispatchHandlers, hnil, flatTrace]
  | succ f ih =>
    intro hs i hadds hlen
    by_cases h : i < hs.length
    · rw [dispatchHandlers, dif_pos h]
      have ha : (hs.get ⟨i, h⟩).adds = [] := hadds _ (hs.get_mem _ _)
      rw [ha, List.append_nil]
      rw [ih hs (i + 1) hadds (by omega)]
      rw [dropSucc hs i h, flatTrace]
    · rw [dispatchHandlers, dif_neg h]
      have hnil : hs.drop i = [] := List.drop_eq_nil_of_le (by omega)
      rw [hnil, flatTrace]

lemma flatTrace_filter_invoked (e : MessageData) :
    ∀ l : List Handler,
      (flatTrace l e).filter Effect.isInvoked = l.map (fun h => Effect.invoked h.id e) := by
  intro l
  induction l with
  | nil => simp [flatTrace]
  | cons h rest ih =>
    cases hf : h.fails <;>
      simp [flatTrace, hf, List.filter_cons, List.filter_append, Effect.isInvoked, ih]

lemma flatTrace_mem_invoked (e : MessageData) {h : Handler} :
    ∀ {l : List Handler}, h ∈ l → Effect.invoked h.id e ∈ flatTrace l e := by
  intro l hm
  induction l with
  | nil => cases hm
  | cons a rest ih =>
    rcases List.mem_cons.mp hm with rfl | hm'
    · exact List.mem_cons_self _ _
    · exact List.mem_cons_of_mem _ (List.mem_append_right _ (ih hm'))

lemma flatTrace_mem_error (e : MessageData) {h : Handler}
    (hf : h.fails = true) :
    ∀ {l : List Handler}, h ∈ l → Effect.errorLogged h.id ∈ flatTrace l e := by
  intro l hm
  induction l with
  | nil => cases hm
  | cons a rest ih =>
    rcases List.mem_cons.mp hm with rfl | hm'
    · rw [flatTrace, hf]
      exact List.mem_cons_of_mem _ (List.mem_append_left _ (List.mem_singleton_self _))
    · exact List.mem_cons_of_mem _ (List.mem_append_right _ (ih hm'))

lemma builtin_all_sent (env : Env) (m : MessageData) :
    ∀ x ∈ built_in_auto_reply env m, x.isSent = true := by
  intro x hx
  simp only [built_in_auto_reply] at hx
  split at hx
  · cases hx
  · split at hx
    · cases hx
    · split at hx
      · cases hx
      · rw [List.mem_singleton] at hx
        subst hx
        rfl

lemma builtin_filter_invoked (env : Env) (m : MessageData) :
    (built_in_auto_reply env m).filter Effect.isInvoked = [] := by
  rw [List.filter_eq_nil_iff]
  intro x hx
  have hs := builtin_all_sent env m x hx
  cases x <;> simp_all [Effect.isSent, Effect.isInvoked]

lemma builtin_skip (env : Env) (m : MessageData)
    (hc : pyStrip (m.content.getD "") = "") (hm : m.media_type.getD "" = "") :
    built_in_auto_reply env m = [] := by
  simp [built_in_auto_reply, hc, hm]

lemma dispatch_no_sent (e : MessageData) :
    ∀ (fuel : Nat) (hs : List Handler) (i : Nat),
      ∀ x ∈ dispatchHandlers fuel hs i e, x.isSent = false := by
  intro fuel
  induction fuel with
  | zero => intro hs i x hx; simp [dispatchHandlers] at hx
  | succ f ih =>
    intro hs i x hx
    rw [dispatchHandlers] at hx
    by_cases h : i < hs.length
    · rw [dif_pos h] at hx
      rcases List.mem_cons.mp hx with rfl | hx'
      · rfl
      rcases List.mem_append.mp hx' with hx'' | hx''
      · split at hx''
        · rw [List.mem_singleton] at hx''
          subst hx''
          rfl
        · cases hx''
      · exact ih _ _ x hx''
    · rw [dif_neg h] at hx
      cases hx

lemma foldl_add {α : Type} (subs : List α) :
    ∀ acc : List α, subs.foldl add_message_handler acc = acc ++ subs := by
  induction subs with
  | nil => intro acc; simp
  | cons a l ih =>
    intro acc
    rw [List.foldl_cons]
    rw [ih (add_message_handler acc a)]
    simp [add_message_handler]

/-! ### Claims C1 and C2 -/

/-- Claim C1: if subscriber Sk raises an exception during
`notify_message_handlers`, every later subscriber is still invoked with the
event, and the exception is caught and logged inside the loop.  The
dispatcher's total return type (a plain effect trace, not an `Except`)
embeds that the publish call itself never raises to its caller. -/
theorem subscriber_failure_isolated (env : Env) (e : MessageData)
    (hs : List Handler) (fuel k j : Nat) (hk : k < hs.length) (hj : j < hs.length)
    (hkj : k < j) (hfail : (hs.get ⟨k, hk⟩).fails = true)
    (hadds : hs.all (fun x => x.adds.isEmpty) = true) (hfuel : hs.length ≤ fuel) :
    Effect.errorLogged (hs.get ⟨k, hk⟩).id ∈ notify_message_handlers env fuel hs e ∧
      Effect.invoked (hs.get ⟨j, hj⟩).id e ∈ notify_message_handlers env fuel hs e := by
  have hd : dispatchHandlers fuel hs 0 e = flatTrace hs e := by
    simpa using dispatch_no_adds e fuel hs 0 (all_adds_empty hadds) (by omega)
  unfold notify_message_handlers
  rw [hd]
  constructor
  · exact List.mem_append_right _ (flatTrace_mem_error e hfail (hs.get_mem _ _))
  · exact List.mem_append_right _ (flatTrace_mem_invoked e (hs.get_mem _ _))

/-- Witness for C1: with handler 1 raising and handler 2 registered after
it, the trace records the caught error of handler 1 and the invocation of
handler 2. -/
theorem subscriber_failure_isolated_witness :
    Effect.errorLogged 1 ∈
        notify_message_handlers env₀ 2 [Handler.mk 1 true [], Handler.mk 2 false []] e₀ ∧
      Effect.invoked 2 e₀ ∈
        notify_message_handlers env₀ 2 [Handler.mk 1 true [], Handler.mk 2 false []] e₀ :=
  subscriber_failure_isolated env₀ e₀ [Handler.mk 1 true [], Handler.mk 2 false []] 2 0 1
    (by decide) (by decide) (by decide) rfl (by decide) (by decide)

/-- Claim C2: handlers registered in order S1..SN via
`add_message_handler` are invoked by a single `notify_message_handlers`
call in exactly that registration order: the invocation sub-trace is the
registration sequence. -/
theorem registration_order_delivery (env : Env) (e : MessageData)
    (subs : List Handler) (fuel : Nat)
    (hadds : subs.all (fun x => x.adds.isEmpty) = true)
    (hfuel : subs.length ≤ fuel) :
    (notify_message_handlers env fuel (subs.foldl add_message_handler []) e).filter
        Effect.isInvoked
      = subs.map (fun h => Effect.invoked h.id e) := by
  have hreg : subs.foldl add_message_handler ([] : List Handler) = subs := by
    simpa using foldl_add subs []
  rw [hreg]
  unfold notify_message_handlers
  rw [List.filter_append, builtin_filter_invoked, List.nil_append]
  have hd : dispatchHandlers fuel subs 0 e = flatTrace subs e := by
    simpa using dispatch_no_adds e fuel subs 0 (all_adds_empty hadds) (by omega)
  rw [hd, flatTrace_filter_invoked]

/-- Witness for C2: registering handlers 1 and 2 in order yields the
invocation trace [1, 2]. -/
theorem registration_order_delivery_witness :
    (notify_message_handlers env₀ 2
        ([Handler.mk 1 false [], Handler.mk 2 true []].foldl add_message_handler []) e₀).filter
        Effect.isInvoked
      = [Effect.invoked 1 e₀, Effect.invoked 2 e₀] :=
  registration_order_delivery env₀ e₀ [Handler.mk 1 false [], Handler.mk 2 true []] 2
    (by decide) (by decide)

/-! ### Claims C3, C4 and C9 -/

lemma broadcastGo_delivered {α : Type} [DecidableEq α] (putOk : α → Bool) :
    ∀ (pending delivered live : List α),
      (broadcastGo putOk pending delivered live).1 = delivered ++ pending.filter putOk := by
  intro pending
  induction pending with
  | nil => intro d l; simp [broadcastGo]
  | cons q rest ih =>
    intro d l
    cases hq : putOk q <;> simp [broadcastGo, hq, ih, List.filter_cons]

/-- Counterexample to C3: `notify_message_handlers` iterates the live
handler list, not a snapshot.  Handler 1 registers handler 2 during the
publish of `e₀`, and handler 2 is nevertheless invoked with `e₀` in the
same publish call — the claim says it must not receive `e₀`. -/
theorem snapshot_stability_cex :
    Effect.invoked 2 e₀ ∈
      notify_message_handlers env₀ 3 [Handler.mk 1 false [Handler.mk 2 false []]] e₀ := by
  decide

/-- Amended C3: the dispatch loop of `notify_message_handlers` iterates
the live list, so a handler registered during an in-progress publish by an
earlier handler does receive the event; `broadcast_event`, by contrast,
iterates the copy of `sse_connections` taken when the call starts, so its
set of attempted deliveries is determined by the start-of-call list
alone. -/
theorem live_list_iteration {α : Type} [DecidableEq α] (env : Env) (e : MessageData)
    (a b : Nat) (c : Bool) (fuel : Nat) (hfuel : 2 ≤ fuel) :
    Effect.invoked b e ∈
        notify_message_handlers env fuel [Handler.mk a c [Handler.mk b false []]] e ∧
      ∀ (conns : List α) (putOk : α → Bool),
        (broadcast_event conns putOk).1 = conns.filter putOk := by
  constructor
  · obtain ⟨f, rfl⟩ : ∃ f, fuel = f + 2 := ⟨fuel - 2, by omega⟩
    unfold notify_message_handlers
    refine List.mem_append_right _ ?_
    rw [dispatchHandlers, dif_pos (by simp)]
    refine List.mem_cons_of_mem _ (List.mem_append_right _ ?_)
    rw [dispatchHandlers, dif_pos (by simp [Handler.adds])]
    simp [Handler.adds, Handler.id, Handler.fails, List.get]
  · intro conns putOk
    simpa using broadcastGo_delivered putOk conns [] conns

/-- Witness for the amended C3 at a concrete registry and connection
list. -/
theorem live_list_iteration_witness :
    Effect.invoked 2 e₀ ∈
        notify_message_handlers env₀ 2 [Handler.mk 1 false [Handler.mk 2 false []]] e₀ ∧
      (broadcast_event [0, 1] (fun q => q == 0)).1 = [0, 1].filter (fun q => q == 0) :=
  ⟨(live_list_iteration (α := Nat) env₀ e₀ 1 2 false 2 (by decide)).1,
    (live_list_iteration (α := Nat) env₀ e₀ 1 2 false 2 (by decide)).2 [0, 1] (fun q => q == 0)⟩

/-- Counterexample to C4: registering the same handler twice via
`add_message_handler` is not a no-op — a subsequent publish invokes it
twice, not exactly once. -/
theorem duplicate_registration_cex :
    ((notify_message_handlers env₀ 2
          (add_message_handler (add_message_handler [] (Handler.mk 7 false []))
            (Handler.mk 7 false [])) e₀).count (Effect.invoked 7 e₀) = 2) ∧
      ¬((notify_message_handlers env₀ 2
          (add_message_handler (add_message_handler [] (Handler.mk 7 false []))
            (Handler.mk 7 false [])) e₀).count (Effect.invoked 7 e₀) = 1) := by
  decide

/-- Amended C4: the registry is a plain list (a multiset), not a set:
registering handler `h` twice yields two registry entries, and a single
publish invokes `h` once per entry — twice in total. -/
theorem duplicate_registration_double_delivery (env : Env) (e : MessageData)
    (h : Handler) (fuel : Nat) (hadds : h.adds = []) (hfuel : 2 ≤ fuel) :
    (notify_message_handlers env fuel
          (add_message_handler (add_message_handler [] h) h) e).filter Effect.isInvoked
      = [Effect.invoked h.id e, Effect.invoked h.id e] := by
  have hreg : add_message_handler (add_message_handler [] h) h = [h, h] := rfl
  rw [hreg]
  unfold notify_message_handlers
  rw [List.filter_append, builtin_filter_invoked, List.nil_append]
  have hall : ∀ x ∈ [h, h], x.adds = [] := by
    intro x hx
    rcases List.mem_cons.mp hx with rfl | hx'
    · exact hadds
    rcases List.mem_cons.mp hx' with rfl | hx''
    · exact hadds
    · cases hx''
  have hd : dispatchHandlers fuel [h, h] 0 e = flatTrace [h, h] e := by
    simpa using dispatch_no_adds e fuel [h, h] 0 hall (by simpa using hfuel)
  rw [hd, flatTrace_filter_invoked]
  simp

/-- Witness for the amended C4: handler 9 registered twice is invoked
twice. -/
theorem duplicate_registration_double_delivery_witness :
    (notify_message_handlers env₀ 2
          (add_message_handler (add_message_handler [] (Handler.mk 9 false []))
            (Handler.mk 9 false [])) e₀).filter Effect.isInvoked
      = [Effect.invoked 9 e₀, Effect.invoked 9 e₀] :=
  duplicate_registration_double_delivery env₀ e₀ (Handler.mk 9 false []) 2 rfl (by decide)

/-- Claim C9: `notify_message_handlers` runs the built-in auto-reply
before the registered handlers — its trace is the auto-reply effects
followed by the dispatch effects, the auto-reply only produces outbound
sends and the dispatch loop never does, so every handler invocation comes
after the auto-reply has finished; and when the stripped content is empty
and there is no media type, the auto-reply performs no outbound send and
returns without effect. -/
theorem builtin_auto_reply_first (env : Env) (fuel : Nat) (hs : List Handler)
    (m : MessageData) :
    notify_message_handlers env fuel hs m
        = built_in_auto_reply env m ++ dispatchHandlers fuel hs 0 m ∧
      (∀ x ∈ built_in_auto_reply env m, x.isSent = true) ∧
      (∀ x ∈ dispatchHandlers fuel hs 0 m, x.isSent = false) ∧
      (pyStrip (m.content.getD "") = "" ∧ m.media_type.getD "" = "" →
        built_in_auto_reply env m = []) :=
  ⟨rfl, builtin_all_sent env m, dispatch_no_sent m fuel hs 0,
    fun hc => builtin_skip env m hc.1 hc.2⟩

/-- Witness for C9: on the empty notification the auto-reply produces no
effect, and the trace decomposes as auto-reply effects before dispatch
effects. -/
theorem builtin_auto_reply_first_witness :
    built_in_auto_reply env₀ e₀ = [] ∧
      notify_message_handlers env₀ 1 [Handler.mk 3 false []] e₀
        = built_in_auto_reply env₀ e₀ ++ dispatchHandlers 1 [Handler.mk 3 false []] 0 e₀ :=
  ⟨(builtin_auto_reply_first env₀ 1 [Handler.mk 3 false []] e₀).2.2.2 ⟨by decide, by decide⟩,
    (builtin_auto_reply_first env₀ 1 [Handler.mk 3 false []] e₀).1⟩

/-! ### Claim C6 -/

/-- Counterexample to C6: with the same handler registered twice (the
registry is a plain list, duplicates are possible), two consecutive
`remove_message_handler` calls remove two occurrences, not exactly one —
the claimed result after removing exactly once would be `[0]`. -/
theorem unsubscribe_idempotent_cex :
    remove_message_handler (remove_message_handler [0, 0] 0) 0 = ([] : List Nat) ∧
      ¬remove_message_handler (remove_message_handler [0, 0] 0) 0 = [0] := by
  decide

/-- Amended C6: removing an unregistered handler is a no-op that raises no
error; each call removes the first occurrence of the handler if present;
and when the handler is registered at most once, the second of two
consecutive calls is a no-op, so the handler is removed exactly once. -/
theorem unsubscribe_idempotent {α : Type} [DecidableEq α] (hs : List α) (h : α) :
    (h ∉ hs → remove_message_handler hs h = hs) ∧
      (hs.count h ≤ 1 →
        remove_message_handler (remove_message_handler hs h) h
          = remove_message_handler hs h) ∧
      remove_message_handler hs h = hs.erase h := by
  have herase : remove_message_handler hs h = hs.erase h := by
    by_cases hm : h ∈ hs
    · simp [remove_message_handler, hm]
    · simp [remove_message_handler, hm, List.erase_of_not_mem hm]
  refine ⟨?_, ?_, herase⟩
  · intro hm
    simp [remove_message_handler, hm]
  · intro hcount
    rw [herase]
    by_cases hm : h ∈ hs
    · have h1 : hs.count h ≠ 0 := fun hc => (List.count_eq_zero.mp hc) hm
      have h0 : (hs.erase h).count h = 0 := by
        rw [List.count_erase_self]
        omega
      have hnot : h ∉ hs.erase h := List.count_eq_zero.mp h0
      simp [remove_message_handler, hnot]
    · rw [List.erase_of_not_mem hm]
      simp [remove_message_handler, hm]

/-- Witness for the amended C6: removing the unregistered handler 3 from
the registry `[5]` is a no-op, twice in a row. -/
theorem unsubscribe_idempotent_witness :
    remove_message_handler [5] 3 = [5] ∧
      remove_message_handler (remove_message_handler [5] 3) 3
        = remove_message_handler [5] 3 :=
  ⟨(unsubscribe_idempotent [5] 3).1 (by decide),
    (unsubscribe_idempotent [5] 3).2.1 (by decide)⟩

/-! ### Claim C8 -/

/-- The live-list updates `broadcastGo` performs: each failed queue is
removed from the live list under the membership guard. -/
def removeFailed {α : Type} [DecidableEq α] (putOk : α → Bool) :
    List α → List α → List α
  | [], live => live
  | q :: rest, live =>
    if putOk q then removeFailed putOk rest live
    else removeFailed putOk rest (guardedRemove live q)

lemma guardedRemove_eq_erase {α : Type} [DecidableEq α] (l : List α) (q : α) :
    guardedRemove l q = l.erase q := by
  by_cases hm : q ∈ l
  · simp [guardedRemove, hm]
  · simp [guardedRemove, hm, List.erase_of_not_mem hm]

lemma broadcastGo_live {α : Type} [DecidableEq α] (putOk : α → Bool) :
    ∀ (pending delivered live : List α),
      (broadcastGo putOk pending delivered live).2 = removeFailed putOk pending live := by
  intro pending
  induction pending with
  | nil => intro d l; simp [broadcastGo, removeFailed]
  | cons q rest ih =>
    intro d l
    cases hq : putOk q <;> simp [broadcastGo, removeFailed, hq, ih]

lemma removeFailed_cons_not_mem {α : Type} [DecidableEq α] (putOk : α → Bool) (a : α) :
    ∀ (l live : List α), a ∉ l →
      removeFailed putOk l (a :: live) = a :: removeFailed putOk l live := by
  intro l
  induction l with
  | nil => intro live _; simp [removeFailed]
  | cons q rest ih =>
    intro live ha
    have hqa : q ≠ a := fun hp => ha (hp ▸ List.mem_cons_self q rest)
    have ha' : a ∉ rest := fun hp => ha (List.mem_cons_of_mem _ hp)
    cases hq : putOk q
    · simp only [removeFailed, hq, Bool.false_eq_true, if_false]
      rw [guardedRemove_eq_erase, List.erase_cons_tail (by simp [Ne.symm hqa]),
        ← guardedRemove_eq_erase]
      exact ih (guardedRemove live q) ha'
    · simp only [removeFailed, hq, if_true]
      exact ih live ha'

lemma removeFailed_self {α : Type} [DecidableEq α] (putOk : α → Bool) :
    ∀ conns : List α, conns.Nodup →
      removeFailed putOk conns conns = conns.filter putOk := by
  intro conns
  induction conns with
  | nil => intro _; simp [removeFailed]
  | cons c rest ih =>
    intro hnd
    rw [List.nodup_cons] at hnd
    cases hc : putOk c
    · simp only [removeFailed, hc, Bool.false_eq_true, if_false]
      rw [guardedRemove_eq_erase, List.erase_cons_head, ih hnd.2]
      simp [List.filter_cons, hc]
    · simp only [removeFailed, hc, if_true]
      rw [removeFailed_cons_not_mem putOk c rest rest hnd.1, ih hnd.2]
      simp [List.filter_cons, hc]

/-- Claim C8: under the (source-guaranteed) invariant that each SSE
connection registers a distinct fresh queue, `broadcast_event` delivers to
every healthy queue, removes each failed queue from the registry exactly
once (the final live list is the original list minus the failed queues,
order preserved), and completes normally for every input — enqueue
failures are caught and never surface as a publish-level error.  The
membership guard makes removing an already-removed queue a no-op, so a
connection is never removed a second time. -/
theorem sse_removal_exactly_once {α : Type} [DecidableEq α] (conns : List α)
    (putOk : α → Bool) (hnd : conns.Nodup) :
    broadcast_event conns putOk = (conns.filter putOk, conns.filter putOk) ∧
      ∀ (l : List α) (q : α), q ∉ l → guardedRemove l q = l := by
  constructor
  · unfold broadcast_event
    rw [Prod.ext_iff]
    refine ⟨by simpa using broadcastGo_delivered putOk conns [] conns, ?_⟩
    rw [broadcastGo_live putOk conns [] conns, removeFailed_self putOk conns hnd]
  · intro l q hql
    simp [guardedRemove, hql]

/-- Witness for C8: queue 1 fails to enqueue and is removed once; removing
it again from the resulting registry is a no-op. -/
theorem sse_removal_exactly_once_witness :
    broadcast_event [0, 1, 2] (fun q => q != 1) = ([0, 2], [0, 2]) ∧
      guardedRemove [0, 2] 1 = [0, 2] :=
  ⟨(sse_removal_exactly_once [0, 1, 2] (fun q => q != 1) (by decide)).1,
    (sse_removal_exactly_once [0, 1, 2] (fun q => q != 1) (by decide)).2 [0, 2] 1 (by decide)⟩

/-! ### Claim C5 -/

/-- Counterexample to C5: the empty raw notification (an empty object,
no discriminator and no sender) is not rejected: the ingestion endpoint
parses it, notifies the handlers and reports success with HTTP 200 — there
is no shape validation and no `MalformedEventError`. -/
theorem malformed_rejection_cex :
    (message_notification env₀ 1 [] (Except.ok e₀)).1
      = ⟨true, "Notification processed successfully", 200⟩ := by
  decide

/-- Amended C5: the ingestion endpoint performs no shape validation — any
successfully parsed body (the empty object included) is processed and
acknowledged with success and HTTP 200, missing fields defaulting at use
sites; the only failure is a body that cannot be parsed as JSON, which is
reported to the caller as a `success: false` response with HTTP status 500
(a server error, not a 4xx client error) and never crashes the hub; the
well-formed notification with sender "123" is processed successfully and
each registered handler is invoked with that event. -/
theorem ingestion_no_validation (env : Env) (fuel fuel2 : Nat) (hs : List Handler)
    (err : String) (nd : MessageData) (h : Handler)
    (hadds : h.adds = []) (hf : 1 ≤ fuel2) :
    message_notification env fuel hs (Except.error err)
        = (⟨false, "Error processing notification: " ++ err, 500⟩, []) ∧
      (message_notification env fuel hs (Except.ok nd)).1
        = ⟨true, "Notification processed successfully", 200⟩ ∧
      md123.sender = some "123" ∧
      Effect.invoked h.id md123
        ∈ (message_notification env fuel2 [h] (Except.ok md123)).2 := by
  refine ⟨rfl, rfl, rfl, ?_⟩
  have hall : ∀ x ∈ [h], x.adds = [] := by
    intro x hx
    rcases List.mem_cons.mp hx with rfl | hx'
    · exact hadds
    · cases hx'
  have hd : dispatchHandlers fuel2 [h] 0 md123 = flatTrace [h] md123 := by
    simpa using dispatch_no_adds md123 fuel2 [h] 0 hall (by simpa using hf)
  show Effect.invoked h.id md123 ∈ notify_message_handlers env fuel2 [h] md123
  unfold notify_message_handlers
  rw [hd]
  exact List.mem_append_right _ (flatTrace_mem_invoked md123 (List.mem_cons_self _ _))

/-- Witness for the amended C5. -/
theorem ingestion_no_validation_witness :
    message_notification env₀ 1 [] (Except.error "bad json")
        = (⟨false, "Error processing notification: bad json", 500⟩, []) ∧
      (message_notification env₀ 1 [] (Except.ok e₀)).1
        = ⟨true, "Notification processed successfully", 200⟩ ∧
      Effect.invoked 4 md123
        ∈ (message_notification env₀ 1 [Handler.mk 4 false []] (Except.ok md123)).2 :=
  ⟨(ingestion_no_validation env₀ 1 1 [] "bad json" e₀ (Handler.mk 4 false []) rfl
      (by decide)).1,
    (ingestion_no_validation env₀ 1 1 [] "bad json" e₀ (Handler.mk 4 false []) rfl
      (by decide)).2.1,
    (ingestion_no_validation env₀ 1 1 [] "bad json" e₀ (Handler.mk 4 false []) rfl
      (by decide)).2.2.2⟩

/-! ### Claim C7 -/

/-- Counterexample to C7: a 70-time-unit idle gap before the next real
event makes the channel emit two keepalives before that event (one per
elapsed 30-unit timeout window), not exactly one. -/
theorem keepalive_cex :
    sseLoop 3 0 [(70, "m")]
        = [OutEvent.keepalive 30, OutEvent.keepalive 60, OutEvent.realEvent "m" 70] ∧
      ¬(sseLoop 3 0 [(70, "m")]).countP OutEvent.isKeepalive = 1 := by
  decide

/-- Amended C7: the channel emits one keepalive, stamped with the emission
time, at the end of every elapsed 30-unit idle window: when the next real
event arrives after `k` full windows (and within the following one), the
output begins with exactly `k` keepalives at times t+30, ..., t+30k
followed by the real event; in particular exactly one keepalive precedes
the real event when the gap is at most two windows. -/
theorem keepalive_per_idle_window (t ta : Nat) (d : String) (k fuel : Nat)
    (h1 : t + 30 * k < ta) (h2 : ta ≤ t + 30 * (k + 1)) (hf : k + 1 ≤ fuel) :
    (sseLoop fuel t [(ta, d)]).take (k + 1)
      = kaList t k ++ [OutEvent.realEvent d ta] := by
  induction k generalizing t fuel with
  | zero =>
    obtain ⟨f, rfl⟩ : ∃ f, fuel = f + 1 := ⟨fuel - 1, by omega⟩
    rw [sseLoop, if_pos (by omega)]
    simp [kaList]
  | succ n ih =>
    obtain ⟨f, rfl⟩ : ∃ f, fuel = f + 1 := ⟨fuel - 1, by omega⟩
    rw [sseLoop, if_neg (by omega)]
    rw [List.take_succ_cons, kaList]
    rw [ih (t + 30) f (by omega) (by omega) (by omega)]
    simp

/-- Witness for the amended C7: starting at time 0 with the next event at
time 70 (two elapsed windows), the output is keepalives at 30 and 60 and
then the real event. -/
theorem keepalive_per_idle_window_witness :
    (sseLoop 3 0 [(70, "m")]).take 3
      = [OutEvent.keepalive 30, OutEvent.keepalive 60, OutEvent.realEvent "m" 70] :=
  keepalive_per_idle_window 0 70 "m" 2 3 (by decide) (by decide) (by decide)

/-! ### Claim C10 -/

/-- Claim C10: the `send_message` tool rejects an empty (falsy) recipient
with `{"success": false, "message": "Recipient must be provided"}` without
calling the underlying WhatsApp send function (the call log stays empty),
and for every non-empty recipient it returns exactly the
`(success, status_message)` pair produced by the underlying send, having
called it once with the given recipient and message. -/
theorem send_message_validation (wsend : String → String → Bool × String)
    (recipient : String) (message : String) :
    (recipient = "" →
        send_message wsend recipient message
          = (⟨false, "Recipient must be provided"⟩, [])) ∧
      (¬recipient = "" →
        send_message wsend recipient message
          = (⟨(wsend recipient message).1, (wsend recipient message).2⟩,
              [(recipient, message)])) := by
  constructor
  · intro h
    simp [send_message, h]
  · intro h
    simp [send_message, h]

/-- Witness for C10: an empty recipient is rejected without any underlying
call; recipient "123" forwards the underlying result. -/
theorem send_message_validation_witness :
    send_message (fun _ _ => (true, "sent")) "" "hello"
        = (⟨false, "Recipient must be provided"⟩, []) ∧
      send_message (fun _ _ => (true, "sent")) "123" "hello"
        = (⟨true, "sent"⟩, [("123", "hello")]) :=
  ⟨(send_message_validation (fun _ _ => (true, "sent")) "" "hello").1 rfl,
    (send_message_validation (fun _ _ => (true, "sent")) "123" "hello").2 (by decide)⟩
